import Mathlib

set_option maxRecDepth 8192

/-!
Shallow embedding of src/util/taskcluster.py, the DeepSpeech TaskCluster
download helper.  Python strings are modelled as List Char.  The Python
percent-formatting operator applied to a mapping (line 32 of the source)
is modelled by pyFormatAux below, restricted to the fragment that the
URL schemes use: literal characters, the escape %%, and named
placeholders of the form %(key)s.  Width or precision flags and
conversions other than s are modelled as format errors; the schemes in
this repository use only plain %(key)s placeholders.  Python assertion
failures and formatting exceptions are modelled with Except.
-/

/-- Errors of the Python percent-formatting operator with a mapping
argument: a key that is absent from the mapping (KeyError), a percent
sequence that the template ends before completing (ValueError, incomplete
format), and a conversion character outside the modelled fragment. -/
inductive FormatError where
  | keyError (key : List Char)
  | incompleteFormat
  | unsupportedFormatChar (c : Char)
deriving DecidableEq

/-- Exceptions raised by get_tc_url: a failed Python assert statement
(lines 26 to 30 of the source) or an error raised by percent formatting
(line 32). -/
inductive TCError where
  | assertionError
  | formatError (e : FormatError)
deriving DecidableEq

/-- Scanner state of the percent-formatting model: plain text, just after
a percent sign, inside a parenthesised key (with the characters read so
far in reverse), or just after the closing parenthesis of a key. -/
inductive FmtMode where
  | text
  | percent
  | inKey (acc : List Char)
  | conv (key : List Char)

/-- Character-by-character model of the Python expression
template % mapping for the named-placeholder fragment.  In text mode a
percent sign starts a placeholder and every other character is copied; a
double percent emits one percent sign; %(key)s substitutes the value
bound to key in the mapping and raises KeyError when the key is absent.
A mapping never complains about unused keys, matching Python. -/
def pyFormatAux (m : List (List Char × List Char)) :
    FmtMode → List Char → Except FormatError (List Char)
  | .text, [] => .ok []
  | .text, c :: rest =>
    if c = '%' then pyFormatAux m .percent rest
    else (pyFormatAux m .text rest).map (fun t => c :: t)
  | .percent, [] => .error .incompleteFormat
  | .percent, c :: rest =>
    if c = '%' then (pyFormatAux m .text rest).map (fun t => '%' :: t)
    else if c = '(' then pyFormatAux m (.inKey []) rest
    else .error (.unsupportedFormatChar c)
  | .inKey _, [] => .error .incompleteFormat
  | .inKey acc, c :: rest =>
    if c = ')' then pyFormatAux m (.conv acc.reverse) rest
    else pyFormatAux m (.inKey (c :: acc)) rest
  | .conv _, [] => .error .incompleteFormat
  | .conv key, c :: rest =>
    if c = 's' then
      match List.lookup key m with
      | some v => (pyFormatAux m .text rest).map (fun t => v ++ t)
      | none => .error (.keyError key)
    else .error (.unsupportedFormatChar c)

/-- Python template % mapping, starting in text mode. -/
def pyFormatMap (m : List (List Char × List Char)) (template : List Char) :
    Except FormatError (List Char) :=
  pyFormatAux m .text template

/-- The mapping built on line 32 of the source, in source order. -/
def tcMap (arch_string artifact_name branch_name : List Char) :
    List (List Char × List Char) :=
  [("arch_string".data, arch_string),
   ("artifact_name".data, artifact_name),
   ("branch_name".data, branch_name)]

/-- DEFAULT_SCHEMES deepspeech entry, line 19 of the source. -/
def deepspeech_scheme : List Char :=
  "https://index.taskcluster.net/v1/task/project.deepspeech.deepspeech.native_client.%(branch_name)s.%(arch_string)s/artifacts/public/%(artifact_name)s".data

/-- DEFAULT_SCHEMES tensorflow entry, line 20 of the source. -/
def tensorflow_scheme : List Char :=
  "https://index.taskcluster.net/v1/task/project.deepspeech.tensorflow.pip.%(branch_name)s.%(arch_string)s/artifacts/public/%(artifact_name)s".data

/-- DEFAULT_SCHEMES, lines 18 to 21 of the source, as an association list. -/
def DEFAULT_SCHEMES : List (List Char × List Char) :=
  [("deepspeech".data, deepspeech_scheme),
   ("tensorflow".data, tensorflow_scheme)]

/-- TASKCLUSTER_SCHEME, line 23 of the source: the value of the
environment variable when it is set, the deepspeech scheme otherwise. -/
def TASKCLUSTER_SCHEME (env : Option (List Char)) : List Char :=
  env.getD deepspeech_scheme

/-- get_tc_url, lines 25 to 32 of the source.  The scheme parameter is
the current value of the global TASKCLUSTER_SCHEME.  Python None is
modelled as none.  The asserts are checked in source order: arch_string
is only checked against None (there is no emptiness assert for it),
artifact_name and branch_name are checked against None and emptiness.
The Python default arguments are kept. -/
def get_tc_url (scheme : List Char) (arch_string : Option (List Char))
    (artifact_name : Option (List Char) := some "native_client.tar.xz".data)
    (branch_name : Option (List Char) := some "master".data) :
    Except TCError (List Char) :=
  match arch_string with
  | none => .error .assertionError
  | some arch =>
    match artifact_name with
    | none => .error .assertionError
    | some artifact =>
      if artifact = [] then .error .assertionError
      else
        match branch_name with
        | none => .error .assertionError
        | some branch =>
          if branch = [] then .error .assertionError
          else
            match pyFormatMap (tcMap arch artifact branch) scheme with
            | .ok s => .ok s
            | .error e => .error (.formatError e)

/-- Python truthiness of an optional string: None and the empty string
are falsy, every other string is truthy. -/
def pyTruthy : Option (List Char) → Bool
  | none => false
  | some s => !s.isEmpty

/-- stat.S_IEXEC, the owner-executable permission bit 0o100. -/
def S_IEXEC : Nat := 64

/-- The mode computed by maybe_download_tc_bin on line 66 of the source:
the existing mode of the downloaded file with the owner-executable bit
added by bitwise or. -/
def maybe_download_tc_bin_mode (st_mode : Nat) : Nat :=
  Nat.lor st_mode S_IEXEC

/-- The percentage computed by report_progress on line 36 of the source:
count * block_size * 100 // total_size with Python integer floor
division. -/
def report_progress_percent (count block_size total_size : Nat) : Nat :=
  count * block_size * 100 / total_size

/-- Token of a URL template: a literal character or a named %(key)s
placeholder.  A token list represents exactly the templates whose
percent signs all begin named placeholders. -/
inductive Tok where
  | lit (c : Char)
  | ph (key : List Char)
deriving DecidableEq

/-- The template string a token list denotes. -/
def renderTemplate : List Tok → List Char
  | [] => []
  | .lit c :: ts => c :: renderTemplate ts
  | .ph k :: ts => '%' :: '(' :: (k ++ ')' :: 's' :: renderTemplate ts)

/-- The string obtained from a token list by replacing every placeholder
verbatim with the value the mapping binds to its key and keeping every
literal character. -/
def renderResult (m : List (List Char × List Char)) : List Tok → List Char
  | [] => []
  | .lit c :: ts => c :: renderResult m ts
  | .ph k :: ts => (List.lookup k m).getD [] ++ renderResult m ts

/-- Well-formedness of a token with respect to a mapping: a literal is
not a percent sign, and a placeholder key has no closing parenthesis and
is bound in the mapping. -/
def wfTok (m : List (List Char × List Char)) : Tok → Bool
  | .lit c => decide (c ≠ '%')
  | .ph k => decide (')' ∉ k) && (List.lookup k m).isSome

/-- The literal spelling of a %(key)s placeholder. -/
def phStr (k : List Char) : List Char := '%' :: '(' :: (k ++ [')', 's'])

/-- Read-only snapshot of the executing platform, the inputs of lines 93
to 96 and 112 to 128 of the source: platform.machine(), sys.platform,
platform.system(), sys.maxsize, sys.maxunicode and sys.version_info. -/
structure Platform where
  machine : List Char
  sysPlatform : List Char
  system : List Char
  maxsize : Nat
  maxunicode : Nat
  pyMajor : Nat
  pyMinor : Nat

/-- Line 93 of the source: the machine string contains "arm". -/
def is_arm (p : Platform) : Bool := decide ("arm".data <:+: p.machine)

/-- Line 94 of the source: sys.platform contains "darwin". -/
def is_mac (p : Platform) : Bool := decide ("darwin".data <:+: p.sysPlatform)

/-- Line 95 of the source: sys.maxsize exceeds 2^31 - 1. -/
def is_64bit (p : Platform) : Bool := decide (2 ^ 31 - 1 < p.maxsize)

/-- Line 96 of the source: sys.maxunicode is below 0x10ffff. -/
def is_ucs2 (p : Platform) : Bool := decide (p.maxunicode < 0x10ffff)

/-- Lines 99 to 104 of the source: the architecture tag derived when the
arch argument is falsy. -/
def defaultArch (p : Platform) : List Char :=
  if is_arm p then (if is_64bit p then "arm64".data else "arm".data)
  else if is_mac p then "osx".data
  else "cpu".data

/-- Lines 98 to 104 of the source: args.arch after the defaulting block.
A falsy arch argument (absent flag or empty string) is replaced by the
derived default. -/
def resolveArch (archArg : Option (List Char)) (p : Platform) : List Char :=
  if pyTruthy archArg then archArg.getD [] else defaultArch p

/-- Lines 106 to 109 of the source: has_branch_set is the truthiness of
the branch argument. -/
def has_branch_set (branchArg : Option (List Char)) : Bool := pyTruthy branchArg

/-- Lines 106 to 109 of the source: args.branch after the defaulting
block, outside decoder mode. -/
def effective_branch (branchArg : Option (List Char)) : List Char :=
  if pyTruthy branchArg then branchArg.getD [] else "master".data

/-- Python str.lower restricted to ASCII letters, as used on line 112. -/
def pyLower (s : List Char) : List Char := s.map Char.toLower

/-- Python str.strip with no argument, line 121: remove leading and
trailing whitespace. -/
def pyStrip (s : List Char) : List Char :=
  ((s.dropWhile Char.isWhitespace).reverse.dropWhile Char.isWhitespace).reverse

/-- Modelled from the spec: the string rendering of
pkg_resources.parse_version applied on lines 122 and 131.  parse_version
belongs to an external library, not to this repository; on an already
canonical release string such as 0.6.0 (the only shape the spec
scenarios exercise) its rendering returns the input unchanged, so it is
modelled as the identity. -/
def parse_version_render (v : List Char) : List Char := v

/-- Lines 112 to 119 of the source: the platform tag of the decoder
wheel.  platform.system() lowercased, with linux/x86_64 mapped to
manylinux1 and darwin mapped to macosx_10_10. -/
def decoder_plat (p : Platform) : List Char :=
  let plat0 := pyLower p.system
  let plat1 :=
    if plat0 = "linux".data ∧ p.machine = "x86_64".data then "manylinux1".data else plat0
  if plat1 = "darwin".data then "macosx_10_10".data else plat1

/-- Line 127 of the source: the narrow or wide unicode ABI letter. -/
def m_or_mu (p : Platform) : List Char := if is_ucs2 p then "mu".data else "m".data

/-- Line 128 of the source: the interpreter major and minor versions
concatenated as decimal digits. -/
def pyver (p : Platform) : List Char :=
  Nat.toDigits 10 p.pyMajor ++ Nat.toDigits 10 p.pyMinor

/-- Lines 130 to 136 of the source: the decoder wheel filename. -/
def decoder_artifact (p : Platform) (version_file : List Char) : List Char :=
  "ds_ctcdecoder-".data ++ parse_version_render (pyStrip version_file)
    ++ "-cp".data ++ pyver p ++ "-cp".data ++ pyver p ++ m_or_mu p
    ++ "-".data ++ decoder_plat p ++ "_".data ++ p.machine ++ ".whl".data

/-- Lines 106 to 109 and 124 to 125 of the source: the branch used in
decoder mode.  When the branch argument is falsy the branch becomes the
letter v followed by the stripped VERSION file content. -/
def decoder_branch (branchArg : Option (List Char)) (version_file : List Char) : List Char :=
  if pyTruthy branchArg then branchArg.getD [] else 'v' :: pyStrip version_file

/-- Line 138 of the source: the architecture token used for the scheme
lookup in decoder mode. -/
def ctc_arch (archArg : Option (List Char)) (p : Platform) : List Char :=
  resolveArch archArg p ++ "-ctc".data

/-- Parsed command line of main, lines 72 to 87 of the source.  none
models an absent optional flag; artifact carries the argparse default
native_client.tar.xz when the flag is absent. -/
structure Args where
  target : Option (List Char)
  arch : Option (List Char)
  artifact : List Char
  source : Option (List Char)
  branch : Option (List Char)
  decoder : Bool

/-- Observable outcome of one run of main after argument parsing.
usageError is the exit(1) of line 91; unknownScheme is the message and
exit(1) of lines 148 to 149; printUrl is the print and exit(0) of lines
140 to 141 in decoder mode, with no network access; download is the
maybe_download_tc call of line 151, the only outcome with network
access; raisedError is a propagated Python exception from get_tc_url. -/
inductive MainOutcome where
  | usageError
  | unknownScheme
  | printUrl (url : List Char)
  | download (target_dir url : List Char)
  | raisedError (e : TCError)

/-- Lines 89 to 151 of the source: the control flow of main after
argument parsing.  env is the TASKCLUSTER_SCHEME environment variable
read at startup, version_file the content of the sibling VERSION file.
The decoder block of lines 111 to 141 runs before the source scheme
selection of lines 143 to 149, which in turn runs before the download of
line 151. -/
def mainRun (env : Option (List Char)) (a : Args) (p : Platform)
    (version_file : List Char) : MainOutcome :=
  if !pyTruthy a.target && !a.decoder then .usageError
  else if a.decoder then
    match get_tc_url (TASKCLUSTER_SCHEME env) (some (ctc_arch a.arch p))
        (some (decoder_artifact p version_file))
        (some (decoder_branch a.branch version_file)) with
    | .ok u => .printUrl u
    | .error e => .raisedError e
  else
    match a.source with
    | none =>
      match get_tc_url (TASKCLUSTER_SCHEME env) (some (resolveArch a.arch p))
          (some a.artifact) (some (effective_branch a.branch)) with
      | .ok u => .download (a.target.getD []) u
      | .error e => .raisedError e
    | some s =>
      match List.lookup s DEFAULT_SCHEMES with
      | some sch =>
        match get_tc_url sch (some (resolveArch a.arch p))
            (some a.artifact) (some (effective_branch a.branch)) with
        | .ok u => .download (a.target.getD []) u
        | .error e => .raisedError e
      | none => .unknownScheme

/-- os.path.basename for a URL or path: the characters after the last
slash. -/
def os_path_basename (s : List Char) : List Char :=
  s.foldl (fun acc c => if c = '/' then [] else acc ++ [c]) []

/-- os.path.join for an absolute directory with no trailing slash and a
plain filename, the shapes maybe_download_tc produces on line 54. -/
def os_path_join (d f : List Char) : List Char := d ++ '/' :: f

/-- Filesystem and network state observed by maybe_download_tc: the set
of existing files (the target directory itself is created on line 47 and
is always creatable in this model) and the number of network transfers,
that is of urlretrieve calls on line 57, performed so far. -/
structure DLState where
  files : List (List Char)
  transfers : Nat
deriving DecidableEq

/-- Lines 34 to 61 of the source: maybe_download_tc on an abstract
filesystem state.  The destination is the target directory joined with
the final path segment of the URL; when it already exists the network
transfer is skipped, otherwise one transfer creates it.  Either way the
destination path is returned.  target_dir is taken as already absolute,
matching the abspath call of line 45 on absolute input. -/
def maybe_download_tc (s : DLState) (target_dir tc_url : List Char) :
    DLState × List Char :=
  let tc_filename := os_path_basename tc_url
  let target_file := os_path_join target_dir tc_filename
  if target_file ∈ s.files then (s, target_file)
  else ({ files := target_file :: s.files, transfers := s.transfers + 1 }, target_file)

/-- The URL the deepspeech scheme resolves to: the template text with
the branch, arch and artifact values spliced in at the placeholder
positions.  This is the spec-level description of the substitution; the
lemma get_tc_url_deepspeech proves that get_tc_url computes it. -/
def deepspeech_url (arch art br : List Char) : List Char :=
  "https://index.taskcluster.net/v1/task/project.deepspeech.deepspeech.native_client.".data
    ++ (br ++ (".".data ++ (arch ++ ("/artifacts/public/".data ++ art))))

theorem pyFormatAux_inKey_scan (m : List (List Char × List Char)) (k : List Char)
    (acc rest : List Char) (hk : ')' ∉ k) :
    pyFormatAux m (.inKey acc) (k ++ ')' :: rest)
      = pyFormatAux m (.conv (acc.reverse ++ k)) rest := by
  induction k generalizing acc with
  | nil => simp [pyFormatAux]
  | cons c k ih =>
    have hc : c ≠ ')' := fun h => hk (by simp [h])
    have hk2 : ')' ∉ k := fun h => hk (List.mem_cons_of_mem _ h)
    simp only [List.cons_append, pyFormatAux, if_neg hc]
    show pyFormatAux m (FmtMode.inKey (c :: acc)) (k ++ ')' :: rest)
        = pyFormatAux m (FmtMode.conv (acc.reverse ++ c :: k)) rest
    rw [ih (c :: acc) hk2]
    simp [List.append_assoc]

theorem pyFormatAux_text_append (m : List (List Char × List Char)) (seg rest : List Char)
    (hseg : '%' ∉ seg) :
    pyFormatAux m .text (seg ++ rest)
      = (pyFormatAux m .text rest).map (fun t => seg ++ t) := by
  induction seg with
  | nil => cases h : pyFormatAux m .text rest <;> simp [Except.map, h]
  | cons c s ih =>
    have hc : c ≠ '%' := fun h => hseg (by simp [h])
    have hs : '%' ∉ s := fun h => hseg (List.mem_cons_of_mem _ h)
    have h1 : pyFormatAux m .text ((c :: s) ++ rest)
        = (pyFormatAux m .text (s ++ rest)).map (fun t => c :: t) := by
      simp [pyFormatAux, hc]
    rw [h1, ih hs]
    cases h : pyFormatAux m .text rest <;> simp [Except.map]

theorem pyFormatAux_text_ph (m : List (List Char × List Char)) (k v rest : List Char)
    (hk : ')' ∉ k) (hv : List.lookup k m = some v) :
    pyFormatAux m .text (phStr k ++ rest)
      = (pyFormatAux m .text rest).map (fun t => v ++ t) := by
  have h1 : phStr k ++ rest = '%' :: '(' :: (k ++ ')' :: 's' :: rest) := by
    simp [phStr, List.append_assoc]
  rw [h1]
  rw [show pyFormatAux m .text ('%' :: '(' :: (k ++ ')' :: 's' :: rest))
        = pyFormatAux m (.inKey []) (k ++ ')' :: 's' :: rest) from by simp [pyFormatAux]]
  rw [pyFormatAux_inKey_scan m k [] _ hk]
  simp [pyFormatAux, hv]

theorem pyFormatMap_renderTemplate (m : List (List Char × List Char)) (toks : List Tok)
    (hw : ∀ t ∈ toks, wfTok m t = true) :
    pyFormatMap m (renderTemplate toks) = .ok (renderResult m toks) := by
  induction toks with
  | nil => rfl
  | cons t ts ih =>
    have ht := hw t (List.mem_cons_self _ _)
    have hts : ∀ x ∈ ts, wfTok m x = true := fun x hx => hw x (List.mem_cons_of_mem _ hx)
    cases t with
    | lit c =>
      have hc : c ≠ '%' := by simpa [wfTok] using ht
      have hrw : renderTemplate (.lit c :: ts) = [c] ++ renderTemplate ts := rfl
      rw [pyFormatMap, hrw,
        pyFormatAux_text_append m [c] _ (fun h => hc (List.mem_singleton.mp h).symm)]
      rw [show pyFormatAux m .text (renderTemplate ts) = pyFormatMap m (renderTemplate ts) from rfl]
      rw [ih hts]
      simp [Except.map, renderResult]
    | ph k =>
      have ht2 : (')' ∉ k) ∧ (List.lookup k m).isSome = true := by
        simpa [wfTok] using ht
      obtain ⟨v, hv⟩ := Option.isSome_iff_exists.mp ht2.2
      have hrw : renderTemplate (.ph k :: ts) = phStr k ++ renderTemplate ts := by
        simp [renderTemplate, phStr, List.append_assoc]
      rw [pyFormatMap, hrw, pyFormatAux_text_ph m k v _ ht2.1 hv]
      rw [show pyFormatAux m .text (renderTemplate ts) = pyFormatMap m (renderTemplate ts) from rfl]
      rw [ih hts]
      simp [Except.map, renderResult, hv]

theorem renderResult_no_percent (m : List (List Char × List Char)) (toks : List Tok)
    (hw : ∀ t ∈ toks, wfTok m t = true)
    (hv : ∀ k v, List.lookup k m = some v → '%' ∉ v) :
    '%' ∉ renderResult m toks := by
  induction toks with
  | nil => simp [renderResult]
  | cons t ts ih =>
    have ht := hw t (List.mem_cons_self _ _)
    have hts : ∀ x ∈ ts, wfTok m x = true := fun x hx => hw x (List.mem_cons_of_mem _ hx)
    cases t with
    | lit c =>
      have hc : c ≠ '%' := by simpa [wfTok] using ht
      simp only [renderResult, List.mem_cons]
      rintro (h | h)
      · exact hc h.symm
      · exact ih hts h
    | ph k =>
      have ht2 : (')' ∉ k) ∧ (List.lookup k m).isSome = true := by
        simpa [wfTok] using ht
      obtain ⟨v, hvk⟩ := Option.isSome_iff_exists.mp ht2.2
      simp only [renderResult, hvk, Option.getD_some, List.mem_append]
      rintro (h | h)
      · exact hv k v hvk h
      · exact ih hts h

theorem tcMap_lookup (a b c k v : List Char)
    (h : List.lookup k (tcMap a b c) = some v) : v = a ∨ v = b ∨ v = c := by
  simp only [tcMap, List.lookup] at h
  split at h
  · exact Or.inl (Option.some.inj h).symm
  · split at h
    · exact Or.inr (Or.inl (Option.some.inj h).symm)
    · split at h
      · exact Or.inr (Or.inr (Option.some.inj h).symm)
      · exact absurd h (by simp)

theorem get_tc_url_some (scheme arch art br : List Char)
    (hart : art ≠ []) (hbr : br ≠ []) :
    get_tc_url scheme (some arch) (some art) (some br)
      = match pyFormatMap (tcMap arch art br) scheme with
        | .ok s => .ok s
        | .error e => .error (.formatError e) := by
  show (if art = [] then Except.error TCError.assertionError
        else if br = [] then Except.error TCError.assertionError
        else match pyFormatMap (tcMap arch art br) scheme with
          | .ok s => .ok s
          | .error e => .error (.formatError e)) = _
  rw [if_neg hart, if_neg hbr]

/-- C1, corrected: for every template whose percent signs each begin one
of the three named placeholders and in which all three placeholders
occur, and every triple of non-empty values that contain no percent
sign, get_tc_url returns the template with each placeholder replaced
verbatim by the corresponding value (renderResult splices the values
verbatim) and no percent sign, hence no placeholder syntax, remains in
the result. -/
theorem C1_substitution (toks : List Tok) (arch art br : List Char)
    (hw : toks.all (wfTok (tcMap arch art br)) = true)
    (hall1 : Tok.ph "arch_string".data ∈ toks)
    (hall2 : Tok.ph "artifact_name".data ∈ toks)
    (hall3 : Tok.ph "branch_name".data ∈ toks)
    (ha : arch ≠ []) (hart : art ≠ []) (hbr : br ≠ [])
    (hpa : '%' ∉ arch) (hpart : '%' ∉ art) (hpbr : '%' ∉ br) :
    get_tc_url (renderTemplate toks) (some arch) (some art) (some br)
      = .ok (renderResult (tcMap arch art br) toks)
    ∧ '%' ∉ renderResult (tcMap arch art br) toks := by
  have hw2 : ∀ t ∈ toks, wfTok (tcMap arch art br) t = true := List.all_eq_true.mp hw
  have hv : ∀ k v, List.lookup k (tcMap arch art br) = some v → '%' ∉ v := by
    intro k v h
    rcases tcMap_lookup _ _ _ _ _ h with rfl | rfl | rfl
    · exact hpa
    · exact hpart
    · exact hpbr
  constructor
  · rw [get_tc_url_some _ _ _ _ hart hbr, pyFormatMap_renderTemplate _ _ hw2]
  · exact renderResult_no_percent _ _ hw2 hv

/-- Witness for C1: a concrete template with all three placeholders and
concrete percent-free values. -/
theorem C1_substitution_witness :
    get_tc_url (renderTemplate [Tok.ph "arch_string".data, Tok.lit '.',
        Tok.ph "branch_name".data, Tok.lit '/', Tok.ph "artifact_name".data])
      (some "cpu".data) (some "a.xz".data) (some "master".data)
      = .ok (renderResult (tcMap "cpu".data "a.xz".data "master".data)
          [Tok.ph "arch_string".data, Tok.lit '.', Tok.ph "branch_name".data,
           Tok.lit '/', Tok.ph "artifact_name".data])
    ∧ '%' ∉ renderResult (tcMap "cpu".data "a.xz".data "master".data)
          [Tok.ph "arch_string".data, Tok.lit '.', Tok.ph "branch_name".data,
           Tok.lit '/', Tok.ph "artifact_name".data] :=
  C1_substitution _ _ _ _ (by decide) (by decide) (by decide) (by decide)
    (by decide) (by decide) (by decide) (by decide) (by decide) (by decide)

/-- Counterexample to C1 as stated: the default scheme contains all
three named placeholders and the three values are non-empty, yet the
result still contains placeholder syntax, because a value that itself
looks like a placeholder is spliced verbatim and is not rescanned.  So
the claim that no placeholder syntax remains for EVERY triple of
non-empty values is false. -/
theorem C1_counterexample :
    get_tc_url deepspeech_scheme (some "%(arch_string)s".data)
      (some "native_client.tar.xz".data) (some "master".data)
      = .ok "https://index.taskcluster.net/v1/task/project.deepspeech.deepspeech.native_client.master.%(arch_string)s/artifacts/public/native_client.tar.xz".data
    ∧ "%(arch_string)s".data
        <:+: "https://index.taskcluster.net/v1/task/project.deepspeech.deepspeech.native_client.master.%(arch_string)s/artifacts/public/native_client.tar.xz".data :=
  ⟨rfl, by decide⟩

/-- C4, corrected: get_tc_url raises the assertion error whenever the
architecture string is absent (None), or the artifact name is absent or
empty, or the branch name is absent or empty.  An empty but present
architecture string is not rejected; see the counterexample. -/
theorem C4_asserts (scheme : List Char) (arch art br : Option (List Char))
    (h : arch = none ∨ art = none ∨ art = some [] ∨ br = none ∨ br = some []) :
    get_tc_url scheme arch art br = .error .assertionError := by
  rcases h with rfl | rfl | rfl | rfl | rfl
  · rfl
  · cases arch <;> rfl
  · cases arch <;> rfl
  · cases arch with
    | none => rfl
    | some a =>
      cases art with
      | none => rfl
      | some x =>
        by_cases hx : x = []
        · subst hx; rfl
        · simp [get_tc_url, hx]
  · cases arch with
    | none => rfl
    | some a =>
      cases art with
      | none => rfl
      | some x =>
        by_cases hx : x = []
        · subst hx; rfl
        · simp [get_tc_url, hx]

/-- Witness for C4: an empty artifact name raises the assertion error. -/
theorem C4_asserts_witness :
    get_tc_url deepspeech_scheme (some "cpu".data) (some []) (some "master".data)
      = .error .assertionError :=
  C4_asserts deepspeech_scheme (some "cpu".data) (some []) (some "master".data)
    (Or.inr (Or.inr (Or.inl rfl)))

/-- Counterexample to C4 as stated: an empty (but present) architecture
string does not fail, because the source only asserts arch_string
against None and never asserts its truthiness; the call succeeds and
produces a URL with an empty architecture segment. -/
theorem C4_counterexample :
    get_tc_url deepspeech_scheme (some []) (some "native_client.tar.xz".data)
      (some "master".data)
      = .ok "https://index.taskcluster.net/v1/task/project.deepspeech.deepspeech.native_client.master./artifacts/public/native_client.tar.xz".data :=
  rfl

/-- C5, corrected: when at least one of the three named placeholders
does not occur in the template (whose percent signs each begin a named
placeholder), get_tc_url applied with non-empty values does not raise a
template error: percent formatting with a mapping ignores unused keys,
so the call returns the template with the occurring placeholders
substituted. -/
theorem C5_missing_placeholder (toks : List Tok) (arch art br : List Char)
    (hw : toks.all (wfTok (tcMap arch art br)) = true)
    (hmiss : Tok.ph "arch_string".data ∉ toks ∨ Tok.ph "artifact_name".data ∉ toks
      ∨ Tok.ph "branch_name".data ∉ toks)
    (ha : arch ≠ []) (hart : art ≠ []) (hbr : br ≠ []) :
    get_tc_url (renderTemplate toks) (some arch) (some art) (some br)
      = .ok (renderResult (tcMap arch art br) toks) := by
  rw [get_tc_url_some _ _ _ _ hart hbr,
    pyFormatMap_renderTemplate _ _ (List.all_eq_true.mp hw)]

/-- Witness for C5: a template with only the artifact placeholder. -/
theorem C5_missing_placeholder_witness :
    get_tc_url (renderTemplate [Tok.ph "artifact_name".data]) (some "cpu".data)
      (some "native_client.tar.xz".data) (some "master".data)
      = .ok (renderResult (tcMap "cpu".data "native_client.tar.xz".data "master".data)
          [Tok.ph "artifact_name".data]) :=
  C5_missing_placeholder _ _ _ _ (by decide) (Or.inl (by decide)) (by decide)
    (by decide) (by decide)

/-- Counterexample to C5 as stated: a template missing the arch and
branch placeholders is formatted without any error and a string is
returned, instead of the claimed TemplateError failure. -/
theorem C5_counterexample :
    get_tc_url "%(artifact_name)s".data (some "cpu".data)
      (some "native_client.tar.xz".data) (some "master".data)
      = .ok "native_client.tar.xz".data :=
  rfl

/-- C8: the percentage computed by report_progress is the floor of
bytes received (count times block_size) times 100 divided by the total
declared size, as a rational number, whenever the total size is
positive. -/
theorem C8_report_progress_floor (count block_size total_size : Nat)
    (h : 0 < total_size) :
    ((report_progress_percent count block_size total_size : Nat) : ℤ)
      = ⌊((count * block_size * 100 : Nat) : ℚ) / (total_size : ℚ)⌋ := by
  have h2 : (0 : ℚ) ≤ ((count * block_size * 100 : Nat) : ℚ) / (total_size : ℚ) := by
    positivity
  rw [← Int.natCast_floor_eq_floor h2, Nat.floor_div_eq_div]
  rfl

/-- Witness for C8 at count 3, block size 4096, total size 100000. -/
theorem C8_report_progress_floor_witness :
    ((report_progress_percent 3 4096 100000 : Nat) : ℤ)
      = ⌊((3 * 4096 * 100 : Nat) : ℚ) / ((100000 : Nat) : ℚ)⌋ :=
  C8_report_progress_floor 3 4096 100000 (by decide)

/-- C9: the mode maybe_download_tc_bin sets on the downloaded file is
the previous mode with the owner-executable bit or-ed in; the result has
the owner-executable bit (bit 6, octal 0o100) set and every bit that was
set in the previous mode is still set. -/
theorem C9_chmod_adds_exec (st_mode : Nat) :
    maybe_download_tc_bin_mode st_mode = Nat.lor st_mode S_IEXEC
    ∧ (maybe_download_tc_bin_mode st_mode).testBit 6 = true
    ∧ ∀ i, st_mode.testBit i = true
        → (maybe_download_tc_bin_mode st_mode).testBit i = true := by
  refine ⟨rfl, ?_, ?_⟩
  · show (st_mode ||| S_IEXEC).testBit 6 = true
    rw [Nat.testBit_lor]
    rw [show Nat.testBit S_IEXEC 6 = true from by decide]
    exact Bool.or_true _
  · intro i hi
    show (st_mode ||| S_IEXEC).testBit i = true
    rw [Nat.testBit_lor, hi]
    rfl

/-- Witness for C9 at mode 0o644: bit 2 (others-read, value 4) was set
before and is still set after the chmod. -/
theorem C9_chmod_adds_exec_witness :
    (maybe_download_tc_bin_mode 420).testBit 2 = true :=
  (C9_chmod_adds_exec 420).2.2 2 (by decide)

/-- C2, corrected: when the arch flag is absent the default tag is arm64
for an ARM machine with 64-bit pointers, arm for an ARM machine with
32-bit pointers, osx for a non-ARM macOS host and cpu otherwise; a
NON-EMPTY explicit arch value is used verbatim regardless of the
detected platform.  An empty explicit arch value is treated like an
absent flag, because the source tests truthiness; see the
counterexample. -/
theorem C2_arch_derivation (p : Platform) (s : List Char) (hs : s ≠ []) :
    resolveArch (some s) p = s
    ∧ (is_arm p = true → is_64bit p = true → resolveArch none p = "arm64".data)
    ∧ (is_arm p = true → is_64bit p = false → resolveArch none p = "arm".data)
    ∧ (is_arm p = false → is_mac p = true → resolveArch none p = "osx".data)
    ∧ (is_arm p = false → is_mac p = false → resolveArch none p = "cpu".data) := by
  refine ⟨?_, ?_, ?_, ?_, ?_⟩
  · simp [resolveArch, pyTruthy, hs]
  · intro h1 h2; simp [resolveArch, pyTruthy, defaultArch, h1, h2]
  · intro h1 h2; simp [resolveArch, pyTruthy, defaultArch, h1, h2]
  · intro h1 h2; simp [resolveArch, pyTruthy, defaultArch, h1, h2]
  · intro h1 h2; simp [resolveArch, pyTruthy, defaultArch, h1, h2]

/-- Witness for C2 on a 32-bit ARM platform with the explicit value
gpu. -/
theorem C2_arch_derivation_witness :
    resolveArch (some "gpu".data)
        ⟨"armv7l".data, "linux".data, "Linux".data, 2147483647, 1114111, 2, 7⟩
      = "gpu".data
    ∧ (is_arm ⟨"armv7l".data, "linux".data, "Linux".data, 2147483647, 1114111, 2, 7⟩ = true
        → is_64bit ⟨"armv7l".data, "linux".data, "Linux".data, 2147483647, 1114111, 2, 7⟩ = true
        → resolveArch none ⟨"armv7l".data, "linux".data, "Linux".data, 2147483647, 1114111, 2, 7⟩
          = "arm64".data)
    ∧ (is_arm ⟨"armv7l".data, "linux".data, "Linux".data, 2147483647, 1114111, 2, 7⟩ = true
        → is_64bit ⟨"armv7l".data, "linux".data, "Linux".data, 2147483647, 1114111, 2, 7⟩ = false
        → resolveArch none ⟨"armv7l".data, "linux".data, "Linux".data, 2147483647, 1114111, 2, 7⟩
          = "arm".data)
    ∧ (is_arm ⟨"armv7l".data, "linux".data, "Linux".data, 2147483647, 1114111, 2, 7⟩ = false
        → is_mac ⟨"armv7l".data, "linux".data, "Linux".data, 2147483647, 1114111, 2, 7⟩ = true
        → resolveArch none ⟨"armv7l".data, "linux".data, "Linux".data, 2147483647, 1114111, 2, 7⟩
          = "osx".data)
    ∧ (is_arm ⟨"armv7l".data, "linux".data, "Linux".data, 2147483647, 1114111, 2, 7⟩ = false
        → is_mac ⟨"armv7l".data, "linux".data, "Linux".data, 2147483647, 1114111, 2, 7⟩ = false
        → resolveArch none ⟨"armv7l".data, "linux".data, "Linux".data, 2147483647, 1114111, 2, 7⟩
          = "cpu".data) :=
  C2_arch_derivation ⟨"armv7l".data, "linux".data, "Linux".data, 2147483647, 1114111, 2, 7⟩
    "gpu".data (by decide)

/-- Counterexample to C2 as stated: on a non-ARM, non-macOS platform the
explicitly supplied empty arch value is NOT used; the source tests
truthiness of args.arch, so the empty string falls back to the derived
default cpu. -/
theorem C2_counterexample :
    resolveArch (some []) ⟨"x86_64".data, "linux".data, "Linux".data,
        9223372036854775807, 1114111, 3, 7⟩ = "cpu".data
    ∧ "cpu".data ≠ ([] : List Char) :=
  ⟨by decide, by decide⟩

/-- C6: when the destination file (target directory joined with the
final path segment of the URL) does not already exist, the first
maybe_download_tc call performs exactly one network transfer, the second
call with the same arguments performs zero additional transfers because
it observes the file created by the first call, and both calls return
the same path. -/
theorem C6_download_idempotent (s : DLState) (target_dir tc_url : List Char)
    (h : os_path_join target_dir (os_path_basename tc_url) ∉ s.files) :
    (maybe_download_tc s target_dir tc_url).1.transfers = s.transfers + 1
    ∧ (maybe_download_tc (maybe_download_tc s target_dir tc_url).1 target_dir tc_url).1.transfers
        = (maybe_download_tc s target_dir tc_url).1.transfers
    ∧ (maybe_download_tc (maybe_download_tc s target_dir tc_url).1 target_dir tc_url).2
        = (maybe_download_tc s target_dir tc_url).2
    ∧ (maybe_download_tc s target_dir tc_url).2
        ∈ (maybe_download_tc s target_dir tc_url).1.files := by
  simp only [maybe_download_tc, if_neg h]
  simp [List.mem_cons]

/-- Witness for C6 starting from an empty filesystem. -/
theorem C6_download_idempotent_witness :
    (maybe_download_tc ⟨[], 0⟩ "/tmp/x".data "https://host/a.xz".data).1.transfers = 0 + 1
    ∧ (maybe_download_tc (maybe_download_tc ⟨[], 0⟩ "/tmp/x".data "https://host/a.xz".data).1
          "/tmp/x".data "https://host/a.xz".data).1.transfers
        = (maybe_download_tc ⟨[], 0⟩ "/tmp/x".data "https://host/a.xz".data).1.transfers
    ∧ (maybe_download_tc (maybe_download_tc ⟨[], 0⟩ "/tmp/x".data "https://host/a.xz".data).1
          "/tmp/x".data "https://host/a.xz".data).2
        = (maybe_download_tc ⟨[], 0⟩ "/tmp/x".data "https://host/a.xz".data).2
    ∧ (maybe_download_tc ⟨[], 0⟩ "/tmp/x".data "https://host/a.xz".data).2
        ∈ (maybe_download_tc ⟨[], 0⟩ "/tmp/x".data "https://host/a.xz".data).1.files :=
  C6_download_idempotent ⟨[], 0⟩ "/tmp/x".data "https://host/a.xz".data (by decide)

/-- C7: in target mode (decoder flag off, truthy target) with a source
value that is not one of the two fixed scheme names, main reaches the
unknown-scheme outcome, which prints a message and exits with status 1;
in particular the outcome is not a download, so no network access
happens. -/
theorem C7_unknown_scheme (env : Option (List Char)) (a : Args) (p : Platform)
    (version_file : List Char) (s : List Char)
    (hd : a.decoder = false) (ht : pyTruthy a.target = true)
    (hs : a.source = some s)
    (h1 : s ≠ "deepspeech".data) (h2 : s ≠ "tensorflow".data) :
    mainRun env a p version_file = .unknownScheme := by
  have hb1 : (s == "deepspeech".data) = false := beq_eq_false_iff_ne.mpr h1
  have hb2 : (s == "tensorflow".data) = false := beq_eq_false_iff_ne.mpr h2
  have hlook : List.lookup s DEFAULT_SCHEMES = none := by
    simp [DEFAULT_SCHEMES, List.lookup, hb1, hb2]
  simp [mainRun, hd, ht, hs, hlook]

/-- Witness for C7 with the source value bogus. -/
theorem C7_unknown_scheme_witness :
    mainRun none
      ⟨some "/tmp/x".data, none, "native_client.tar.xz".data, some "bogus".data, none, false⟩
      ⟨"x86_64".data, "linux".data, "Linux".data, 9223372036854775807, 1114111, 3, 7⟩
      [] = .unknownScheme :=
  C7_unknown_scheme none
    ⟨some "/tmp/x".data, none, "native_client.tar.xz".data, some "bogus".data, none, false⟩
    ⟨"x86_64".data, "linux".data, "Linux".data, 9223372036854775807, 1114111, 3, 7⟩
    [] "bogus".data rfl (by decide) rfl (by decide) (by decide)

/-- C10: with the decoder flag set, main never consults the source flag:
the outcome is unchanged under any replacement of the source value, the
scheme-selection-by-name step never runs (the outcome is never the
unknown-scheme exit), no download is performed, and any URL printed is
resolved against the scheme taken from the environment variable at
startup or, absent that, the built-in default template. -/
theorem C10_decoder_ignores_source (env : Option (List Char)) (a : Args)
    (p : Platform) (version_file : List Char) (s2 : Option (List Char))
    (hd : a.decoder = true) :
    mainRun env a p version_file = mainRun env { a with source := s2 } p version_file
    ∧ mainRun env a p version_file ≠ .unknownScheme
    ∧ (∀ t u, mainRun env a p version_file ≠ .download t u)
    ∧ (∀ u, mainRun env a p version_file = .printUrl u
        → get_tc_url (TASKCLUSTER_SCHEME env) (some (ctc_arch a.arch p))
            (some (decoder_artifact p version_file))
            (some (decoder_branch a.branch version_file)) = .ok u) := by
  have hmain : mainRun env a p version_file
      = match get_tc_url (TASKCLUSTER_SCHEME env) (some (ctc_arch a.arch p))
            (some (decoder_artifact p version_file))
            (some (decoder_branch a.branch version_file)) with
        | .ok u => .printUrl u
        | .error e => .raisedError e := by
    simp [mainRun, hd]
  have hmain2 : mainRun env { a with source := s2 } p version_file
      = match get_tc_url (TASKCLUSTER_SCHEME env) (some (ctc_arch a.arch p))
            (some (decoder_artifact p version_file))
            (some (decoder_branch a.branch version_file)) with
        | .ok u => .printUrl u
        | .error e => .raisedError e := by
    simp [mainRun, hd]
  refine ⟨hmain.trans hmain2.symm, ?_, ?_, ?_⟩
  · rw [hmain]
    cases hE : get_tc_url (TASKCLUSTER_SCHEME env) (some (ctc_arch a.arch p))
        (some (decoder_artifact p version_file))
        (some (decoder_branch a.branch version_file)) <;> simp
  · intro t u
    rw [hmain]
    cases hE : get_tc_url (TASKCLUSTER_SCHEME env) (some (ctc_arch a.arch p))
        (some (decoder_artifact p version_file))
        (some (decoder_branch a.branch version_file)) <;> simp
  · intro u hu
    rw [hmain] at hu
    cases hE : get_tc_url (TASKCLUSTER_SCHEME env) (some (ctc_arch a.arch p))
        (some (decoder_artifact p version_file))
        (some (decoder_branch a.branch version_file)) with
    | error e => rw [hE] at hu; simp at hu
    | ok v => rw [hE] at hu; simp at hu; rw [hu]

/-- Witness for C10: replacing the source value bogus by deepspeech does
not change the decoder-mode outcome on a concrete platform. -/
theorem C10_decoder_ignores_source_witness :
    mainRun none
      ⟨none, none, "native_client.tar.xz".data, some "bogus".data, none, true⟩
      ⟨"x86_64".data, "linux".data, "Linux".data, 9223372036854775807, 1114111, 3, 7⟩
      "0.6.0".data
    = mainRun none
      ⟨none, none, "native_client.tar.xz".data, some "deepspeech".data, none, true⟩
      ⟨"x86_64".data, "linux".data, "Linux".data, 9223372036854775807, 1114111, 3, 7⟩
      "0.6.0".data :=
  (C10_decoder_ignores_source none
    ⟨none, none, "native_client.tar.xz".data, some "bogus".data, none, true⟩
    ⟨"x86_64".data, "linux".data, "Linux".data, 9223372036854775807, 1114111, 3, 7⟩
    "0.6.0".data (some "deepspeech".data) rfl).1

theorem formats_deepspeech (arch art br : List Char) :
    pyFormatMap (tcMap arch art br) deepspeech_scheme
      = .ok (deepspeech_url arch art br) := by
  have hsch : deepspeech_scheme
      = "https://index.taskcluster.net/v1/task/project.deepspeech.deepspeech.native_client.".data
        ++ (phStr "branch_name".data ++ (".".data ++ (phStr "arch_string".data
        ++ ("/artifacts/public/".data ++ phStr "artifact_name".data)))) := by decide
  have l1 : List.lookup "branch_name".data (tcMap arch art br) = some br := rfl
  have l2 : List.lookup "arch_string".data (tcMap arch art br) = some arch := rfl
  have l3 : List.lookup "artifact_name".data (tcMap arch art br) = some art := rfl
  rw [pyFormatMap, hsch]
  rw [pyFormatAux_text_append _ _ _ (by decide)]
  rw [pyFormatAux_text_ph _ _ _ _ (by decide) l1]
  rw [pyFormatAux_text_append _ _ _ (by decide)]
  rw [pyFormatAux_text_ph _ _ _ _ (by decide) l2]
  rw [pyFormatAux_text_append _ _ _ (by decide)]
  rw [show phStr "artifact_name".data = phStr "artifact_name".data ++ []
    from (List.append_nil _).symm]
  rw [pyFormatAux_text_ph _ _ _ _ (by decide) l3]
  simp [pyFormatAux, Except.map, deepspeech_url, List.append_assoc]

theorem get_tc_url_deepspeech (arch art br : List Char)
    (hart : art ≠ []) (hbr : br ≠ []) :
    get_tc_url deepspeech_scheme (some arch) (some art) (some br)
      = .ok (deepspeech_url arch art br) := by
  rw [get_tc_url_some _ _ _ _ hart hbr, formats_deepspeech]

/-- C3: in decoder mode with no branch flag given, a VERSION file whose
stripped content is 0.6.0, a Linux/x86_64 platform and a Python 3
interpreter, the branch used for the URL is v0.6.0; the wheel filename
starts with ds_ctcdecoder-0.6.0-cp3, contains the narrow/wide unicode
letter tag and ends with -manylinux1_x86_64.whl; the architecture token
used for the scheme lookup is the resolved arch with -ctc appended; and
main, run with no environment scheme override, prints the URL resolved
from these parts against the built-in default scheme and downloads
nothing (printUrl is the no-network outcome of lines 140 to 141). -/
theorem C3_decoder_scenario (a : Args) (p : Platform) (version_file : List Char)
    (hd : a.decoder = true) (hb : a.branch = none)
    (hsys : p.system = "Linux".data) (hm : p.machine = "x86_64".data)
    (hmaj : p.pyMajor = 3)
    (hv : pyStrip version_file = "0.6.0".data) :
    decoder_branch a.branch version_file = "v0.6.0".data
    ∧ "ds_ctcdecoder-0.6.0-cp3".data <+: decoder_artifact p version_file
    ∧ m_or_mu p <:+: decoder_artifact p version_file
    ∧ "-manylinux1_x86_64.whl".data <:+ decoder_artifact p version_file
    ∧ ctc_arch a.arch p = resolveArch a.arch p ++ "-ctc".data
    ∧ mainRun none a p version_file
        = .printUrl (deepspeech_url (ctc_arch a.arch p) (decoder_artifact p version_file)
            (decoder_branch a.branch version_file)) := by
  have hplat : decoder_plat p = "manylinux1".data := by
    simp only [decoder_plat, hsys, hm]
    decide
  have hwheel : decoder_artifact p version_file
      = "ds_ctcdecoder-0.6.0-cp3".data
        ++ (Nat.toDigits 10 p.pyMinor ++ ("-cp3".data
        ++ (Nat.toDigits 10 p.pyMinor ++ (m_or_mu p
        ++ "-manylinux1_x86_64.whl".data)))) := by
    simp only [decoder_artifact, parse_version_render, pyver, hplat, hm, hv, hmaj,
      List.append_assoc]
    rfl
  have hbranch : decoder_branch a.branch version_file = "v0.6.0".data := by
    show (if pyTruthy a.branch then a.branch.getD [] else 'v' :: pyStrip version_file)
        = "v0.6.0".data
    rw [hb, hv]
    decide
  have hartne : decoder_artifact p version_file ≠ [] := by
    rw [hwheel]
    exact List.cons_ne_nil _ _
  have hbrne : decoder_branch a.branch version_file ≠ [] := by
    rw [hbranch]
    decide
  have hmain : mainRun none a p version_file
      = .printUrl (deepspeech_url (ctc_arch a.arch p) (decoder_artifact p version_file)
          (decoder_branch a.branch version_file)) := by
    have hgu := get_tc_url_deepspeech (ctc_arch a.arch p) (decoder_artifact p version_file)
        (decoder_branch a.branch version_file) hartne hbrne
    simp [mainRun, hd, TASKCLUSTER_SCHEME, hgu]
  refine ⟨hbranch, ⟨_, hwheel.symm⟩, ?_, ?_, rfl, hmain⟩
  · refine ⟨"ds_ctcdecoder-0.6.0-cp3".data ++ (Nat.toDigits 10 p.pyMinor
      ++ ("-cp3".data ++ Nat.toDigits 10 p.pyMinor)),
      "-manylinux1_x86_64.whl".data, ?_⟩
    rw [hwheel]
    simp [List.append_assoc]
  · refine ⟨"ds_ctcdecoder-0.6.0-cp3".data ++ (Nat.toDigits 10 p.pyMinor
      ++ ("-cp3".data ++ (Nat.toDigits 10 p.pyMinor ++ m_or_mu p))), ?_⟩
    rw [hwheel]
    simp [List.append_assoc]

/-- Witness for C3: concrete decoder-mode invocation on a Linux/x86_64
Python 3.7 platform with VERSION file content 0.6.0 followed by a
newline. -/
theorem C3_decoder_scenario_witness :
    decoder_branch none "0.6.0\n".data = "v0.6.0".data
    ∧ "ds_ctcdecoder-0.6.0-cp3".data <+: decoder_artifact
        ⟨"x86_64".data, "linux".data, "Linux".data, 9223372036854775807, 1114111, 3, 7⟩
        "0.6.0\n".data
    ∧ m_or_mu ⟨"x86_64".data, "linux".data, "Linux".data, 9223372036854775807, 1114111, 3, 7⟩
        <:+: decoder_artifact
          ⟨"x86_64".data, "linux".data, "Linux".data, 9223372036854775807, 1114111, 3, 7⟩
          "0.6.0\n".data
    ∧ "-manylinux1_x86_64.whl".data <:+ decoder_artifact
        ⟨"x86_64".data, "linux".data, "Linux".data, 9223372036854775807, 1114111, 3, 7⟩
        "0.6.0\n".data
    ∧ ctc_arch none ⟨"x86_64".data, "linux".data, "Linux".data, 9223372036854775807, 1114111, 3, 7⟩
        = resolveArch none
            ⟨"x86_64".data, "linux".data, "Linux".data, 9223372036854775807, 1114111, 3, 7⟩
          ++ "-ctc".data
    ∧ mainRun none ⟨none, none, "native_client.tar.xz".data, none, none, true⟩
        ⟨"x86_64".data, "linux".data, "Linux".data, 9223372036854775807, 1114111, 3, 7⟩
        "0.6.0\n".data
        = .printUrl (deepspeech_url
            (ctc_arch none
              ⟨"x86_64".data, "linux".data, "Linux".data, 9223372036854775807, 1114111, 3, 7⟩)
            (decoder_artifact
              ⟨"x86_64".data, "linux".data, "Linux".data, 9223372036854775807, 1114111, 3, 7⟩
              "0.6.0\n".data)
            (decoder_branch none "0.6.0\n".data)) :=
  C3_decoder_scenario ⟨none, none, "native_client.tar.xz".data, none, none, true⟩
    ⟨"x86_64".data, "linux".data, "Linux".data, 9223372036854775807, 1114111, 3, 7⟩
    "0.6.0\n".data rfl rfl rfl rfl rfl (by decide)
